import Mathlib

/-!
Verification of the node-admission gate (`registration/onchain.rs`).

The module under study is `ecall_authenticate_new_node` together with its
helpers `split_combined_cert`, `verify_attestation_epid` and
`verify_attestation_dcap`.  The shallow embedding below translates those
functions into Lean over byte buffers modelled as `List Nat` (each element a
byte value, `< 256` where it matters).  External collaborators
(`verify_ra_cert`, `verify_quote_sgx`, `verify_ra_report`, `encrypt_seed`,
the OOM-margin handlers, the pointer validation macros and the light-client
block check) live outside this module; their responses for one call are
collected in an `Env` record, so every theorem quantifies over all possible
collaborator behaviours.
-/

namespace SecretNet

/-- Node-admission results.  Modelled from the spec: the enumeration
`NodeAuthResult` is declared in `enclave_ffi_types`, outside the provided
sources; the spec (§7) lists the closed outcome set, including
policy-specific measurement-rejection variants, which we render as two
named variants plus a numeric catch-all so that "propagated verbatim"
statements range over a non-trivial value space. -/
inductive NodeAuthResult where
  | Success
  | InvalidCert
  | InvalidInput
  | SignatureInvalid
  | MalformedPublicKey
  | SeedEncryptionFailed
  | MemorySafetyAllocationError
  | Panic
  | BadSignerMeasurement
  | BadCodeMeasurement
  | Other (n : Nat)
  deriving DecidableEq, Repr

/-- Seed variants (`SeedType` in `seed_exchange`, outside the provided
sources).  Modelled from the spec: a genesis-epoch secret and a
current-epoch secret. -/
inductive SeedType where
  | Genesis
  | Current
  deriving DecidableEq, Repr

/-- Signing trust modes (`SigningMethod` in `enclave_crypto::consts`,
outside the provided sources).  Modelled from the spec (§4.5): trust by
signer, trust by exact code measurement, or none. -/
inductive SigningMethod where
  | MRSIGNER
  | MRENCLAVE
  | NONE
  deriving DecidableEq, Repr

/-- Quote-verification collateral freshness status
(`sgx_ql_qv_result_t` from `sgx_types`, outside the provided sources).
Only equality with the OK variant is inspected by the code under study. -/
inductive sgx_ql_qv_result_t where
  | SGX_QL_QV_RESULT_OK
  | SGX_QL_QV_RESULT_CONFIG_NEEDED
  | SGX_QL_QV_RESULT_OUT_OF_DATE
  | SGX_QL_QV_RESULT_INVALID_SIGNATURE
  | SGX_QL_QV_RESULT_OTHER (n : Nat)
  deriving DecidableEq, Repr

/-- The attested report body (`sgx_report_body_t`, outside the provided
sources).  Modelled from the spec: a signer measurement, an enclave-code
measurement, and a 64-byte user-data field (`report_data.d`).  The Rust
type fixes the field sizes; the model keeps them as byte lists. -/
structure ReportBody where
  mr_signer : List Nat
  mr_enclave : List Nat
  report_data : List Nat

/-- Distinct internal failure causes of the seed encryptor (spec §3:
absence of the current-epoch secret is distinct from an encryption
failure, though both collapse to one public outcome). -/
inductive EncryptSeedError where
  | variantMissing
  | encryptionError
  deriving DecidableEq, Repr

/-- Result of running a region of code that may panic: either a normal
value or an unwind.  Used both for a collaborator call that may panic and
for the observable behaviour of the whole ecall (an uncaught panic escapes
the trusted boundary). -/
inductive PanicOr (α : Type) where
  | panicked
  | ok (a : α)
  deriving DecidableEq, Repr

/-- One call's worth of collaborator responses.  Pointer-validation checks
and the OOM-margin register/restore calls are modelled by their boolean
outcomes; the remaining fields are the collaborator functions listed in
spec §6. -/
structure Env where
  /-- `oom_handler::register_oom_handler()` succeeds. -/
  register_oom_handler_ok : Bool
  /-- `oom_handler::restore_safety_buffer()` succeeds. -/
  restore_safety_buffer_ok : Bool
  /-- `validate_mut_ptr!(seed..)` passes. -/
  seed_ptr_ok : Bool
  /-- `validate_const_ptr!(cert..)` passes. -/
  cert_ptr_ok : Bool
  /-- the `light-client-validation` compile feature is enabled. -/
  light_client_validation : Bool
  /-- `check_cert_in_current_block` (only consulted under the feature). -/
  check_cert_in_current_block : List Nat → Bool
  /-- block time in seconds from `VERIFIED_BLOCK_MESSAGES` (under the feature). -/
  block_time_s : Int
  /-- `verify_ra_cert(cert, override, check)` from `registration::cert`. -/
  verify_ra_cert : List Nat → Option SigningMethod → Bool → Except NodeAuthResult (List Nat)
  /-- `verify_quote_sgx(quote, collateral, time)` from `registration::attestation`. -/
  verify_quote_sgx : List Nat → List Nat → Int → Except Nat (ReportBody × sgx_ql_qv_result_t)
  /-- `verify_ra_report(mr_signer, mr_enclave, method)` from `registration::cert`. -/
  verify_ra_report : List Nat → List Nat → Option SigningMethod → NodeAuthResult
  /-- `encrypt_seed(pk, variant, flag)`, which may itself panic. -/
  encrypt_seed : List Nat → SeedType → Bool → PanicOr (Except EncryptSeedError (List Nat))

/-- `PUBLIC_KEY_SIZE` from `enclave_crypto`. -/
def PUBLIC_KEY_SIZE : Nat := 32

/-- `OUTPUT_ENCRYPTED_SEED_SIZE` from `enclave_crypto::consts` (outside the
provided sources).  Modelled from the spec: the output buffer has a fixed
known size; the spec's interface section gives a 96-or-greater-byte
payload, and no claim depends on the exact value, so the model fixes it. -/
def OUTPUT_ENCRYPTED_SEED_SIZE : Nat := 96

/-- `get_current_block_time_s`: under the light-client feature, the block
time from the verified messages; otherwise the fixed default `0`. -/
def get_current_block_time_s (env : Env) : Int :=
  if env.light_client_validation then env.block_time_s else 0

/-- Little-endian `u32` read of four bytes (`u32::from_le` of the raw
pointer read in `split_combined_cert`). -/
def le32 (b0 b1 b2 b3 : Nat) : Nat :=
  b0 + b1 * 256 + b2 * 65536 + b3 * 16777216

/-- The first declared section length (`s0`), read from bytes 0..3. -/
def hdr0 (cert : List Nat) : Nat :=
  le32 (cert.getD 0 0) (cert.getD 1 0) (cert.getD 2 0) (cert.getD 3 0)

/-- The second declared section length (`s1`), read from bytes 4..7. -/
def hdr1 (cert : List Nat) : Nat :=
  le32 (cert.getD 4 0) (cert.getD 5 0) (cert.getD 6 0) (cert.getD 7 0)

/-- The third declared section length (`s2`), read from bytes 8..11. -/
def hdr2 (cert : List Nat) : Nat :=
  le32 (cert.getD 8 0) (cert.getD 9 0) (cert.getD 10 0) (cert.getD 11 0)

/-- `split_combined_cert(cert, cert_len)`: the buffer is the `cert_len`-byte
region, modelled as the list of its bytes.  The three header words are read
only when the buffer holds at least the 12-byte header; the total size is
computed in `u64` (modelled by `% 2^64`, which never wraps for byte-valued
input) and the three sections are copied out only when the declared total
fits in the buffer. -/
def split_combined_cert (cert : List Nat) : List Nat × List Nat × List Nat :=
  let n0 : Nat := 12
  if n0 ≤ cert.length then
    let s0 := hdr0 cert
    let s1 := hdr1 cert
    let s2 := hdr2 cert
    let size_total := (n0 + s0 + s1 + s2) % 2 ^ 64
    if size_total ≤ cert.length then
      ((cert.drop n0).take s0,
       (cert.drop (n0 + s0)).take s1,
       (cert.drop (n0 + s0 + s1)).take s2)
    else ([], [], [])
  else ([], [], [])

/-- `verify_attestation_epid(cert_slice, &mut pub_key)`: returns the
result together with the final contents of `pub_key` (the Rust function
mutates its out-parameter). -/
def verify_attestation_epid (env : Env) (cert_slice : List Nat)
    (pub_key : List Nat) : NodeAuthResult × List Nat :=
  match env.verify_ra_cert cert_slice none true with
  | .error e => (e, pub_key)
  | .ok pk =>
    if pk.length ≠ PUBLIC_KEY_SIZE then
      (.MalformedPublicKey, pub_key)
    else
      (.Success, pk)

/-- `verify_attestation_dcap(vec_quote, vec_coll, &mut pub_key)`: returns
the result with the final contents of `pub_key`.  A non-OK collateral
status (`r.1 ≠ SGX_QL_QV_RESULT_OK`) is only traced, never acted on. -/
def verify_attestation_dcap (env : Env) (vec_quote vec_coll : List Nat)
    (pub_key : List Nat) : NodeAuthResult × List Nat :=
  let tm_s := get_current_block_time_s env
  match env.verify_quote_sgx vec_quote vec_coll tm_s with
  | .error _ => (.InvalidCert, pub_key)
  | .ok r =>
    let report_body := r.1
    let veritication_res :=
      env.verify_ra_report report_body.mr_signer report_body.mr_enclave
        (some .MRSIGNER)
    if veritication_res ≠ .Success then
      (veritication_res, pub_key)
    else
      (.Success, report_body.report_data.take 32)

/-- The `panic::catch_unwind` closure: encrypt the genesis seed, then the
current seed, mapping either failure to `SeedEncryptionFailed`, and
concatenate (`res.extend(&res_current)`).  A panic in either encryption
unwinds the closure. -/
def catch_unwind_seed (env : Env) (target_public_key : List Nat) :
    PanicOr (Except NodeAuthResult (List Nat)) :=
  match env.encrypt_seed target_public_key .Genesis false with
  | .panicked => .panicked
  | .ok (.error _) => .ok (.error .SeedEncryptionFailed)
  | .ok (.ok res) =>
    match env.encrypt_seed target_public_key .Current false with
    | .panicked => .panicked
    | .ok (.error _) => .ok (.error .SeedEncryptionFailed)
    | .ok (.ok res_current) => .ok (.ok (res ++ res_current))

/-- Observable behaviour of one `ecall_authenticate_new_node` call:
the returned code (or an uncaught panic escaping the boundary), the final
contents of the caller's `seed` output buffer, whether
`restore_safety_buffer` was invoked, and which verifier ran. -/
structure ECallResult where
  outcome : PanicOr NodeAuthResult
  seed : List Nat
  restore_called : Bool
  epid_invoked : Bool
  dcap_invoked : Bool
  deriving DecidableEq, Repr

/-- Lines 197–238 of the source: the `catch_unwind` region, the
`restore_safety_buffer` call and the final `seed.copy_from_slice`.
`copy_from_slice` panics when the source length differs from the
destination's (the destination is typed `[u8; OUTPUT_ENCRYPTED_SEED_SIZE]`);
that panic is outside the containment region, hence an uncaught unwind. -/
def seed_phase (env : Env) (target_public_key seed : List Nat)
    (epid dcap : Bool) : ECallResult :=
  let result := catch_unwind_seed env target_public_key
  if !env.restore_safety_buffer_ok then
    ⟨.ok .MemorySafetyAllocationError, seed, true, epid, dcap⟩
  else
    match result with
    | .ok (.ok res) =>
      if res.length = OUTPUT_ENCRYPTED_SEED_SIZE then
        ⟨.ok .Success, res, true, epid, dcap⟩
      else
        ⟨.panicked, seed, true, epid, dcap⟩
    | .ok (.error e) => ⟨.ok e, seed, true, epid, dcap⟩
    | .panicked => ⟨.ok .Panic, seed, true, epid, dcap⟩

/-- `let mut target_public_key: [u8; 32] = [0u8; 32]` — the zero-initialised
out-parameter handed to the verifiers. -/
def init_public_key : List Nat := List.replicate 32 0

/-- `ecall_authenticate_new_node(cert, cert_len, seed)`: the full entry
point.  `cert` is the byte buffer of length `cert_len`; `seed` the initial
contents of the caller's output buffer. -/
def ecall_authenticate_new_node (env : Env) (cert seed : List Nat) :
    ECallResult :=
  if !env.register_oom_handler_ok then
    ⟨.ok .MemorySafetyAllocationError, seed, false, false, false⟩
  else if !env.seed_ptr_ok then
    ⟨.ok .InvalidInput, seed, false, false, false⟩
  else if !env.cert_ptr_ok then
    ⟨.ok .InvalidInput, seed, false, false, false⟩
  else if env.light_client_validation && !env.check_cert_in_current_block cert then
    ⟨.ok .SignatureInvalid, seed, false, false, false⟩
  else
    match split_combined_cert cert with
    | (vec_cert, vec_quote, vec_coll) =>
      if vec_quote.isEmpty || vec_coll.isEmpty then
        if vec_cert.isEmpty then
          ⟨.ok .InvalidCert, seed, false, false, false⟩
        else
          match verify_attestation_epid env vec_cert init_public_key with
          | (res, pk) =>
            if res ≠ .Success then
              ⟨.ok res, seed, false, true, false⟩
            else
              seed_phase env pk seed true false
      else
        match verify_attestation_dcap env vec_quote vec_coll init_public_key with
        | (res, pk) =>
          if res ≠ .Success then
            ⟨.ok res, seed, false, false, true⟩
          else
            seed_phase env pk seed false true

/-! ### Evaluation lemmas for the individual exit paths -/

/-- The preliminary checks (lines 157–170) all pass: the OOM handler
registers, both pointer validations pass, and the light-client check (when
compiled in) accepts the certificate. -/
def prelims_ok (env : Env) (cert : List Nat) : Prop :=
  env.register_oom_handler_ok = true ∧
  env.seed_ptr_ok = true ∧
  env.cert_ptr_ok = true ∧
  (env.light_client_validation && !env.check_cert_in_current_block cert) = false

lemma ecall_register_fail (env : Env) (cert seed : List Nat)
    (h : env.register_oom_handler_ok = false) :
    ecall_authenticate_new_node env cert seed =
      ⟨.ok .MemorySafetyAllocationError, seed, false, false, false⟩ := by
  simp [ecall_authenticate_new_node, h]

lemma ecall_seed_ptr_fail (env : Env) (cert seed : List Nat)
    (h1 : env.register_oom_handler_ok = true) (h2 : env.seed_ptr_ok = false) :
    ecall_authenticate_new_node env cert seed =
      ⟨.ok .InvalidInput, seed, false, false, false⟩ := by
  simp [ecall_authenticate_new_node, h1, h2]

lemma ecall_cert_ptr_fail (env : Env) (cert seed : List Nat)
    (h1 : env.register_oom_handler_ok = true) (h2 : env.seed_ptr_ok = true)
    (h3 : env.cert_ptr_ok = false) :
    ecall_authenticate_new_node env cert seed =
      ⟨.ok .InvalidInput, seed, false, false, false⟩ := by
  simp [ecall_authenticate_new_node, h1, h2, h3]

lemma ecall_light_client_fail (env : Env) (cert seed : List Nat)
    (h1 : env.register_oom_handler_ok = true) (h2 : env.seed_ptr_ok = true)
    (h3 : env.cert_ptr_ok = true)
    (h4 : (env.light_client_validation && !env.check_cert_in_current_block cert) = true) :
    ecall_authenticate_new_node env cert seed =
      ⟨.ok .SignatureInvalid, seed, false, false, false⟩ := by
  simp [ecall_authenticate_new_node, h1, h2, h3, h4]

lemma ecall_no_method (env : Env) (cert seed : List Nat)
    (hp : prelims_ok env cert)
    (vc vq vl : List Nat) (hsplit : split_combined_cert cert = (vc, vq, vl))
    (hql : (vq.isEmpty || vl.isEmpty) = true) (hc : vc.isEmpty = true) :
    ecall_authenticate_new_node env cert seed =
      ⟨.ok .InvalidCert, seed, false, false, false⟩ := by
  obtain ⟨h1, h2, h3, h4⟩ := hp
  simp [ecall_authenticate_new_node, h1, h2, h3, h4, hsplit, hql, hc]

lemma ecall_epid_fail (env : Env) (cert seed : List Nat)
    (hp : prelims_ok env cert)
    (vc vq vl : List Nat) (hsplit : split_combined_cert cert = (vc, vq, vl))
    (hql : (vq.isEmpty || vl.isEmpty) = true) (hc : vc.isEmpty = false)
    (r : NodeAuthResult) (pk : List Nat)
    (hepid : verify_attestation_epid env vc init_public_key = (r, pk))
    (hr : r ≠ .Success) :
    ecall_authenticate_new_node env cert seed =
      ⟨.ok r, seed, false, true, false⟩ := by
  obtain ⟨h1, h2, h3, h4⟩ := hp
  simp [ecall_authenticate_new_node, h1, h2, h3, h4, hsplit, hql, hc, hepid, hr]

lemma ecall_epid_success (env : Env) (cert seed : List Nat)
    (hp : prelims_ok env cert)
    (vc vq vl : List Nat) (hsplit : split_combined_cert cert = (vc, vq, vl))
    (hql : (vq.isEmpty || vl.isEmpty) = true) (hc : vc.isEmpty = false)
    (pk : List Nat)
    (hepid : verify_attestation_epid env vc init_public_key = (.Success, pk)) :
    ecall_authenticate_new_node env cert seed = seed_phase env pk seed true false := by
  obtain ⟨h1, h2, h3, h4⟩ := hp
  simp [ecall_authenticate_new_node, h1, h2, h3, h4, hsplit, hql, hc, hepid]

lemma ecall_dcap_fail (env : Env) (cert seed : List Nat)
    (hp : prelims_ok env cert)
    (vc vq vl : List Nat) (hsplit : split_combined_cert cert = (vc, vq, vl))
    (hql : (vq.isEmpty || vl.isEmpty) = false)
    (r : NodeAuthResult) (pk : List Nat)
    (hdcap : verify_attestation_dcap env vq vl init_public_key = (r, pk))
    (hr : r ≠ .Success) :
    ecall_authenticate_new_node env cert seed =
      ⟨.ok r, seed, false, false, true⟩ := by
  obtain ⟨h1, h2, h3, h4⟩ := hp
  simp [ecall_authenticate_new_node, h1, h2, h3, h4, hsplit, hql, hdcap, hr]

lemma ecall_dcap_success (env : Env) (cert seed : List Nat)
    (hp : prelims_ok env cert)
    (vc vq vl : List Nat) (hsplit : split_combined_cert cert = (vc, vq, vl))
    (hql : (vq.isEmpty || vl.isEmpty) = false)
    (pk : List Nat)
    (hdcap : verify_attestation_dcap env vq vl init_public_key = (.Success, pk)) :
    ecall_authenticate_new_node env cert seed = seed_phase env pk seed false true := by
  obtain ⟨h1, h2, h3, h4⟩ := hp
  simp [ecall_authenticate_new_node, h1, h2, h3, h4, hsplit, hql, hdcap]

lemma seed_phase_restore_fail (env : Env) (pk seed : List Nat) (b1 b2 : Bool)
    (h : env.restore_safety_buffer_ok = false) :
    seed_phase env pk seed b1 b2 =
      ⟨.ok .MemorySafetyAllocationError, seed, true, b1, b2⟩ := by
  simp [seed_phase, h]

lemma seed_phase_panic (env : Env) (pk seed : List Nat) (b1 b2 : Bool)
    (h : env.restore_safety_buffer_ok = true)
    (hc : catch_unwind_seed env pk = .panicked) :
    seed_phase env pk seed b1 b2 = ⟨.ok .Panic, seed, true, b1, b2⟩ := by
  simp [seed_phase, h, hc]

lemma seed_phase_err (env : Env) (pk seed : List Nat) (b1 b2 : Bool)
    (e : NodeAuthResult)
    (h : env.restore_safety_buffer_ok = true)
    (hc : catch_unwind_seed env pk = .ok (.error e)) :
    seed_phase env pk seed b1 b2 = ⟨.ok e, seed, true, b1, b2⟩ := by
  simp [seed_phase, h, hc]

lemma seed_phase_copy (env : Env) (pk seed res : List Nat) (b1 b2 : Bool)
    (h : env.restore_safety_buffer_ok = true)
    (hc : catch_unwind_seed env pk = .ok (.ok res))
    (hlen : res.length = OUTPUT_ENCRYPTED_SEED_SIZE) :
    seed_phase env pk seed b1 b2 = ⟨.ok .Success, res, true, b1, b2⟩ := by
  simp [seed_phase, h, hc, hlen]

lemma seed_phase_copy_mismatch (env : Env) (pk seed res : List Nat) (b1 b2 : Bool)
    (h : env.restore_safety_buffer_ok = true)
    (hc : catch_unwind_seed env pk = .ok (.ok res))
    (hlen : res.length ≠ OUTPUT_ENCRYPTED_SEED_SIZE) :
    seed_phase env pk seed b1 b2 = ⟨.panicked, seed, true, b1, b2⟩ := by
  simp [seed_phase, h, hc, hlen]

lemma catch_unwind_seed_ok_inv (env : Env) (pk res : List Nat)
    (h : catch_unwind_seed env pk = .ok (.ok res)) :
    ∃ g c, env.encrypt_seed pk .Genesis false = .ok (.ok g) ∧
      env.encrypt_seed pk .Current false = .ok (.ok c) ∧ res = g ++ c := by
  unfold catch_unwind_seed at h
  cases hg : env.encrypt_seed pk .Genesis false with
  | panicked => rw [hg] at h; exact absurd h (by simp)
  | ok og =>
    cases og with
    | error e => rw [hg] at h; exact absurd h (by simp)
    | ok g =>
      rw [hg] at h
      cases hc : env.encrypt_seed pk .Current false with
      | panicked => rw [hc] at h; exact absurd h (by simp)
      | ok oc =>
        cases oc with
        | error e => rw [hc] at h; exact absurd h (by simp)
        | ok c =>
          rw [hc] at h
          simp only [PanicOr.ok.injEq, Except.ok.injEq] at h
          exact ⟨g, c, rfl, rfl, h.symm⟩

/-! ### Byte-level facts about the header reads -/

lemma getD_lt_256 (l : List Nat) (h : ∀ b ∈ l, b < 256) (i : Nat) :
    l.getD i 0 < 256 := by
  rcases Nat.lt_or_ge i l.length with hi | hi
  · rw [List.getD_eq_getElem l 0 hi]
    exact h _ (List.getElem_mem hi)
  · rw [List.getD_eq_default l 0 hi]
    norm_num

lemma le32_lt (b0 b1 b2 b3 : Nat) (h0 : b0 < 256) (h1 : b1 < 256)
    (h2 : b2 < 256) (h3 : b3 < 256) : le32 b0 b1 b2 b3 < 2 ^ 32 := by
  unfold le32
  omega

lemma hdr0_lt (cert : List Nat) (h : ∀ b ∈ cert, b < 256) :
    hdr0 cert < 2 ^ 32 :=
  le32_lt _ _ _ _ (getD_lt_256 cert h 0) (getD_lt_256 cert h 1)
    (getD_lt_256 cert h 2) (getD_lt_256 cert h 3)

lemma hdr1_lt (cert : List Nat) (h : ∀ b ∈ cert, b < 256) :
    hdr1 cert < 2 ^ 32 :=
  le32_lt _ _ _ _ (getD_lt_256 cert h 4) (getD_lt_256 cert h 5)
    (getD_lt_256 cert h 6) (getD_lt_256 cert h 7)

lemma hdr2_lt (cert : List Nat) (h : ∀ b ∈ cert, b < 256) :
    hdr2 cert < 2 ^ 32 :=
  le32_lt _ _ _ _ (getD_lt_256 cert h 8) (getD_lt_256 cert h 9)
    (getD_lt_256 cert h 10) (getD_lt_256 cert h 11)

/-- The `u64` total never wraps on byte-valued input. -/
lemma size_total_no_wrap (cert : List Nat) (h : ∀ b ∈ cert, b < 256) :
    (12 + hdr0 cert + hdr1 cert + hdr2 cert) % 2 ^ 64
      = 12 + hdr0 cert + hdr1 cert + hdr2 cert := by
  have h0 := hdr0_lt cert h
  have h1 := hdr1_lt cert h
  have h2 := hdr2_lt cert h
  apply Nat.mod_eq_of_lt
  omega

lemma getD_take_eq (l : List Nat) (i t : Nat) (h : i < t) :
    (l.take t).getD i 0 = l.getD i 0 := by
  rw [List.getD_eq_getElem?_getD, List.getD_eq_getElem?_getD,
    List.getElem?_take_of_lt h]

lemma hdr0_take (cert : List Nat) (t : Nat) (ht : 12 ≤ t) :
    hdr0 (cert.take t) = hdr0 cert := by
  unfold hdr0
  rw [getD_take_eq _ _ _ (by omega), getD_take_eq _ _ _ (by omega),
    getD_take_eq _ _ _ (by omega), getD_take_eq _ _ _ (by omega)]

lemma hdr1_take (cert : List Nat) (t : Nat) (ht : 12 ≤ t) :
    hdr1 (cert.take t) = hdr1 cert := by
  unfold hdr1
  rw [getD_take_eq _ _ _ (by omega), getD_take_eq _ _ _ (by omega),
    getD_take_eq _ _ _ (by omega), getD_take_eq _ _ _ (by omega)]

lemma hdr2_take (cert : List Nat) (t : Nat) (ht : 12 ≤ t) :
    hdr2 (cert.take t) = hdr2 cert := by
  unfold hdr2
  rw [getD_take_eq _ _ _ (by omega), getD_take_eq _ _ _ (by omega),
    getD_take_eq _ _ _ (by omega), getD_take_eq _ _ _ (by omega)]

lemma drop_take_of_le (l : List Nat) (a b t : Nat) (h : a + b ≤ t) :
    ((l.take t).drop a).take b = (l.drop a).take b := by
  rw [List.drop_take, List.take_take]
  congr 1
  omega

/-- The in-bounds branch of the decoder, characterised. -/
lemma split_combined_cert_fits (cert : List Nat)
    (hbytes : ∀ b ∈ cert, b < 256) (h12 : 12 ≤ cert.length)
    (hfit : 12 + hdr0 cert + hdr1 cert + hdr2 cert ≤ cert.length) :
    split_combined_cert cert =
      ((cert.drop 12).take (hdr0 cert),
       (cert.drop (12 + hdr0 cert)).take (hdr1 cert),
       (cert.drop (12 + hdr0 cert + hdr1 cert)).take (hdr2 cert)) := by
  unfold split_combined_cert
  rw [if_pos h12]
  dsimp only
  rw [size_total_no_wrap cert hbytes]
  rw [if_pos hfit]

/-- The out-of-bounds branches of the decoder both give three empty
sections. -/
lemma split_combined_cert_empty (cert : List Nat)
    (hbytes : ∀ b ∈ cert, b < 256)
    (h : cert.length < 12 ∨ cert.length < 12 + hdr0 cert + hdr1 cert + hdr2 cert) :
    split_combined_cert cert = ([], [], []) := by
  unfold split_combined_cert
  rcases Nat.lt_or_ge cert.length 12 with h12 | h12
  · rw [if_neg (by omega)]
  · rw [if_pos h12]
    dsimp only
    rw [size_total_no_wrap cert hbytes]
    rcases h with h | h
    · omega
    · rw [if_neg (by omega)]

/-! ### Claim C5 -/

/-- C5: for every byte buffer, `split_combined_cert` returns three empty
sections whenever the buffer is shorter than the 12-byte header, or
whenever `12 + s0 + s1 + s2` — computed exactly, the widened `u64` sum
never wrapping on byte-valued input — exceeds the buffer's length;
otherwise it returns the three sections of exactly the declared lengths,
taken consecutively after the header, and its result depends only on the
first `12 + s0 + s1 + s2` bytes of the buffer, so it never reads past the
declared region. -/
theorem claim_C5_bundle_decoder (cert : List Nat)
    (hbytes : ∀ b ∈ cert, b < 256) :
    ((12 + hdr0 cert + hdr1 cert + hdr2 cert) % 2 ^ 64
        = 12 + hdr0 cert + hdr1 cert + hdr2 cert) ∧
    (cert.length < 12 → split_combined_cert cert = ([], [], [])) ∧
    (cert.length < 12 + hdr0 cert + hdr1 cert + hdr2 cert →
      split_combined_cert cert = ([], [], [])) ∧
    (12 + hdr0 cert + hdr1 cert + hdr2 cert ≤ cert.length →
      split_combined_cert cert =
        ((cert.drop 12).take (hdr0 cert),
         (cert.drop (12 + hdr0 cert)).take (hdr1 cert),
         (cert.drop (12 + hdr0 cert + hdr1 cert)).take (hdr2 cert)) ∧
      (split_combined_cert cert).1.length = hdr0 cert ∧
      (split_combined_cert cert).2.1.length = hdr1 cert ∧
      (split_combined_cert cert).2.2.length = hdr2 cert ∧
      split_combined_cert cert
        = split_combined_cert (cert.take (12 + hdr0 cert + hdr1 cert + hdr2 cert))) := by
  refine ⟨size_total_no_wrap cert hbytes, ?_, ?_, ?_⟩
  · intro h
    exact split_combined_cert_empty cert hbytes (Or.inl h)
  · intro h
    exact split_combined_cert_empty cert hbytes (Or.inr h)
  · intro hfit
    have h12 : 12 ≤ cert.length := by omega
    have hs := split_combined_cert_fits cert hbytes h12 hfit
    refine ⟨hs, ?_, ?_, ?_, ?_⟩
    · rw [hs]
      simp only [List.length_take, List.length_drop]
      omega
    · rw [hs]
      simp only [List.length_take, List.length_drop]
      omega
    · rw [hs]
      simp only [List.length_take, List.length_drop]
      omega
    · have hbytes' : ∀ b ∈ cert.take (12 + hdr0 cert + hdr1 cert + hdr2 cert), b < 256 :=
        fun b hb => hbytes b (List.take_subset _ _ hb)
      have hlen : (cert.take (12 + hdr0 cert + hdr1 cert + hdr2 cert)).length
          = 12 + hdr0 cert + hdr1 cert + hdr2 cert := by
        rw [List.length_take]
        omega
      have e0 := hdr0_take cert (12 + hdr0 cert + hdr1 cert + hdr2 cert) (by omega)
      have e1 := hdr1_take cert (12 + hdr0 cert + hdr1 cert + hdr2 cert) (by omega)
      have e2 := hdr2_take cert (12 + hdr0 cert + hdr1 cert + hdr2 cert) (by omega)
      have hs' := split_combined_cert_fits
        (cert.take (12 + hdr0 cert + hdr1 cert + hdr2 cert)) hbytes'
        (by rw [hlen]; omega) (by rw [e0, e1, e2, hlen])
      rw [e0, e1, e2] at hs'
      rw [hs, hs']
      rw [drop_take_of_le cert 12 (hdr0 cert) _ (by omega),
        drop_take_of_le cert (12 + hdr0 cert) (hdr1 cert) _ (by omega),
        drop_take_of_le cert (12 + hdr0 cert + hdr1 cert) (hdr2 cert) _ (by omega)]

theorem claim_C5_bundle_decoder_witness :
    split_combined_cert [1, 0, 0, 0, 1, 0, 0, 0, 1, 0, 0, 0, 10, 20, 30]
      = ([10], [20], [30]) := by
  have h := (claim_C5_bundle_decoder
    [1, 0, 0, 0, 1, 0, 0, 0, 1, 0, 0, 0, 10, 20, 30] (by decide)).2.2.2 (by decide)
  rw [h.1]
  decide

/-- The attestation-verification part of the call succeeded and handed the
channel public key `pk` to the secret-release phase: the preliminary
checks passed, and the router selected a verifier that returned
`Success` with final key `pk`. -/
def reaches_seed_phase (env : Env) (cert : List Nat) (pk : List Nat) : Prop :=
  prelims_ok env cert ∧
  ((((split_combined_cert cert).2.1.isEmpty || (split_combined_cert cert).2.2.isEmpty) = false ∧
    verify_attestation_dcap env (split_combined_cert cert).2.1
      (split_combined_cert cert).2.2 init_public_key = (.Success, pk)) ∨
   (((split_combined_cert cert).2.1.isEmpty || (split_combined_cert cert).2.2.isEmpty) = true ∧
    (split_combined_cert cert).1.isEmpty = false ∧
    verify_attestation_epid env (split_combined_cert cert).1 init_public_key
      = (.Success, pk)))

lemma ecall_eq_seed_phase (env : Env) (cert seed pk : List Nat)
    (h : reaches_seed_phase env cert pk) :
    ∃ b1 b2, ecall_authenticate_new_node env cert seed = seed_phase env pk seed b1 b2 := by
  obtain ⟨hp, hcase⟩ := h
  rcases hsplit : split_combined_cert cert with ⟨vc, vq, vl⟩
  rw [hsplit] at hcase
  dsimp only at hcase
  rcases hcase with ⟨hql, hdcap⟩ | ⟨hql, hc, hepid⟩
  · exact ⟨false, true, ecall_dcap_success env cert seed hp vc vq vl hsplit hql pk hdcap⟩
  · exact ⟨true, false, ecall_epid_success env cert seed hp vc vq vl hsplit hql hc pk hepid⟩

lemma seed_phase_flags (env : Env) (pk seed : List Nat) (b1 b2 : Bool) :
    (seed_phase env pk seed b1 b2).epid_invoked = b1 ∧
    (seed_phase env pk seed b1 b2).dcap_invoked = b2 ∧
    (seed_phase env pk seed b1 b2).restore_called = true := by
  cases hr : env.restore_safety_buffer_ok with
  | false =>
    rw [seed_phase_restore_fail env pk seed b1 b2 hr]
    exact ⟨rfl, rfl, rfl⟩
  | true =>
    cases hc : catch_unwind_seed env pk with
    | panicked =>
      rw [seed_phase_panic env pk seed b1 b2 hr hc]
      exact ⟨rfl, rfl, rfl⟩
    | ok oc =>
      cases oc with
      | error e =>
        rw [seed_phase_err env pk seed b1 b2 e hr hc]
        exact ⟨rfl, rfl, rfl⟩
      | ok res =>
        by_cases hlen : res.length = OUTPUT_ENCRYPTED_SEED_SIZE
        · rw [seed_phase_copy env pk seed res b1 b2 hr hc hlen]
          exact ⟨rfl, rfl, rfl⟩
        · rw [seed_phase_copy_mismatch env pk seed res b1 b2 hr hc hlen]
          exact ⟨rfl, rfl, rfl⟩

/-- Inside the containment region, every error is already collapsed to
`SeedEncryptionFailed`. -/
lemma catch_unwind_seed_error_inv (env : Env) (pk : List Nat) (e : NodeAuthResult)
    (h : catch_unwind_seed env pk = .ok (.error e)) :
    e = .SeedEncryptionFailed := by
  unfold catch_unwind_seed at h
  cases hg : env.encrypt_seed pk .Genesis false with
  | panicked =>
    rw [hg] at h
    exact absurd h (by simp)
  | ok og =>
    cases og with
    | error e0 =>
      rw [hg] at h
      simp only [PanicOr.ok.injEq, Except.error.injEq] at h
      exact h.symm
    | ok g =>
      rw [hg] at h
      cases hc : env.encrypt_seed pk .Current false with
      | panicked =>
        rw [hc] at h
        exact absurd h (by simp)
      | ok oc =>
        cases oc with
        | error e0 =>
          rw [hc] at h
          simp only [PanicOr.ok.injEq, Except.error.injEq] at h
          exact h.symm
        | ok c =>
          rw [hc] at h
          exact absurd h (by simp)

/-- An encryption failure for either variant collapses the containment
region's result to `SeedEncryptionFailed`. -/
lemma catch_unwind_seed_fail (env : Env) (pk : List Nat)
    (h : (∃ e, env.encrypt_seed pk .Genesis false = .ok (.error e)) ∨
      (∃ g e, env.encrypt_seed pk .Genesis false = .ok (.ok g) ∧
        env.encrypt_seed pk .Current false = .ok (.error e))) :
    catch_unwind_seed env pk = .ok (.error .SeedEncryptionFailed) := by
  unfold catch_unwind_seed
  rcases h with ⟨e, he⟩ | ⟨g, e, hg, he⟩
  · rw [he]
  · rw [hg, he]

/-- Every exit of the secret-release phase that returns a code other than
`Success` leaves the output buffer unchanged. -/
lemma seed_phase_frame (env : Env) (pk seed : List Nat) (b1 b2 : Bool)
    (r : NodeAuthResult)
    (hr : (seed_phase env pk seed b1 b2).outcome = .ok r)
    (hne : r ≠ .Success) :
    (seed_phase env pk seed b1 b2).seed = seed := by
  cases hres : env.restore_safety_buffer_ok with
  | false => rw [seed_phase_restore_fail env pk seed b1 b2 hres]
  | true =>
    cases hc : catch_unwind_seed env pk with
    | panicked => rw [seed_phase_panic env pk seed b1 b2 hres hc]
    | ok oc =>
      cases oc with
      | error e => rw [seed_phase_err env pk seed b1 b2 e hres hc]
      | ok res =>
        by_cases hlen : res.length = OUTPUT_ENCRYPTED_SEED_SIZE
        · rw [seed_phase_copy env pk seed res b1 b2 hres hc hlen] at hr
          simp only [PanicOr.ok.injEq] at hr
          exact absurd hr.symm hne
        · rw [seed_phase_copy_mismatch env pk seed res b1 b2 hres hc hlen]

/-! ### Concrete collaborator environments used to instantiate theorems -/

/-- A fixed report body used by the concrete environments. -/
def rbW : ReportBody :=
  ⟨List.replicate 32 1, List.replicate 32 2, List.replicate 64 9⟩

/-- A benign collaborator environment: every check passes, the certificate
validator returns a 32-byte key, the quote validator returns `rbW` with an
OK freshness status, and both seed encryptions return 48-byte payloads. -/
def baseEnv : Env where
  register_oom_handler_ok := true
  restore_safety_buffer_ok := true
  seed_ptr_ok := true
  cert_ptr_ok := true
  light_client_validation := false
  check_cert_in_current_block := fun _ => true
  block_time_s := 0
  verify_ra_cert := fun _ _ _ => .ok (List.replicate 32 5)
  verify_quote_sgx := fun _ _ _ => .ok (rbW, .SGX_QL_QV_RESULT_OK)
  verify_ra_report := fun _ _ _ => .Success
  encrypt_seed := fun _ _ _ => .ok (.ok (List.replicate 48 7))

/-! ### Claim C6 -/

/-- C6: on the Legacy Path, any failure outcome from the certificate
validator is propagated verbatim (the channel key untouched); a returned
key whose length is not exactly 32 bytes yields `MalformedPublicKey`; a
32-byte key yields `Success` with the key copied verbatim into the channel
public key. -/
theorem claim_C6_legacy_path (env : Env) (cert_slice pub_key : List Nat) :
    (∀ e, env.verify_ra_cert cert_slice none true = .error e →
      verify_attestation_epid env cert_slice pub_key = (e, pub_key)) ∧
    (∀ pk, env.verify_ra_cert cert_slice none true = .ok pk →
      (pk.length ≠ PUBLIC_KEY_SIZE →
        verify_attestation_epid env cert_slice pub_key
          = (.MalformedPublicKey, pub_key)) ∧
      (pk.length = PUBLIC_KEY_SIZE →
        verify_attestation_epid env cert_slice pub_key = (.Success, pk))) := by
  refine ⟨?_, ?_⟩
  · intro e he
    simp [verify_attestation_epid, he]
  · intro pk hpk
    refine ⟨?_, ?_⟩
    · intro hlen
      simp [verify_attestation_epid, hpk, hlen]
    · intro hlen
      simp [verify_attestation_epid, hpk, hlen]

theorem claim_C6_legacy_path_witness :
    verify_attestation_epid baseEnv [3] [0] = (.Success, List.replicate 32 5) := by
  have h := ((claim_C6_legacy_path baseEnv [3] [0]).2 (List.replicate 32 5) rfl).2
  exact h (by decide)

/-! ### Claim C7 -/

/-- C7: on the Quote Path, an outright quote-verification failure yields
`InvalidCert`; a verified quote proceeds to admission with a result that
does not depend on the collateral-freshness status — in particular a
non-OK status is never fatal. -/
theorem claim_C7_quote_path_freshness (env : Env) (vec_quote vec_coll pub_key : List Nat) :
    (∀ e, env.verify_quote_sgx vec_quote vec_coll (get_current_block_time_s env)
        = .error e →
      verify_attestation_dcap env vec_quote vec_coll pub_key
        = (.InvalidCert, pub_key)) ∧
    (∀ rb st, env.verify_quote_sgx vec_quote vec_coll (get_current_block_time_s env)
        = .ok (rb, st) →
      verify_attestation_dcap env vec_quote vec_coll pub_key =
        (if env.verify_ra_report rb.mr_signer rb.mr_enclave (some .MRSIGNER) ≠ .Success
         then (env.verify_ra_report rb.mr_signer rb.mr_enclave (some .MRSIGNER), pub_key)
         else (.Success, rb.report_data.take 32))) := by
  refine ⟨?_, ?_⟩
  · intro e he
    simp [verify_attestation_dcap, he]
  · intro rb st hq
    simp [verify_attestation_dcap, hq]

/-- The environment of the C7 witness: identical to `baseEnv` except that
the collateral-freshness status is out of date. -/
def envC7 : Env :=
  { baseEnv with
    verify_quote_sgx := fun _ _ _ =>
      Except.ok (rbW, sgx_ql_qv_result_t.SGX_QL_QV_RESULT_OUT_OF_DATE) }

theorem claim_C7_quote_path_freshness_witness :
    verify_attestation_dcap envC7 [1] [2] [0] = (.Success, List.replicate 32 9) := by
  have h := (claim_C7_quote_path_freshness envC7 [1] [2] [0]).2 rbW
    sgx_ql_qv_result_t.SGX_QL_QV_RESULT_OUT_OF_DATE rfl
  rw [h]
  decide

/-! ### Claim C8 -/

/-- C8: on the Quote Path, after a successful quote check the trust-policy
check runs on the attested signer and enclave-code measurements of the
report body; a failing policy outcome is returned as-is, and otherwise the
channel public key becomes exactly the first 32 bytes of the report body's
user-data field and the path returns `Success`. -/
theorem claim_C8_quote_path_policy (env : Env) (vec_quote vec_coll pub_key : List Nat)
    (rb : ReportBody) (st : sgx_ql_qv_result_t)
    (hq : env.verify_quote_sgx vec_quote vec_coll (get_current_block_time_s env)
      = .ok (rb, st)) :
    (∀ r, env.verify_ra_report rb.mr_signer rb.mr_enclave (some .MRSIGNER) = r →
      r ≠ .Success →
      verify_attestation_dcap env vec_quote vec_coll pub_key = (r, pub_key)) ∧
    (env.verify_ra_report rb.mr_signer rb.mr_enclave (some .MRSIGNER) = .Success →
      verify_attestation_dcap env vec_quote vec_coll pub_key
        = (.Success, rb.report_data.take 32)) := by
  refine ⟨?_, ?_⟩
  · intro r hr hne
    simp [verify_attestation_dcap, hq, hr, hne]
  · intro hr
    simp [verify_attestation_dcap, hq, hr]

theorem claim_C8_quote_path_policy_witness :
    verify_attestation_dcap baseEnv [1] [2] [0] = (.Success, List.replicate 32 9) := by
  have h := (claim_C8_quote_path_policy baseEnv [1] [2] [0] rbW
    .SGX_QL_QV_RESULT_OK rfl).2 rfl
  rw [h]
  decide

/-! ### Claim C9 -/

/-- C9: `ecall_authenticate_new_node` is deterministic — two calls made
with the same bundle bytes, the same initial output buffer and the same
collaborator responses (pointer checks, light-client check, time source,
certificate validator, quote validator, policy check, seed encryptor and
OOM-margin handlers) produce identical result codes and identical
output-buffer contents. -/
theorem claim_C9_deterministic (e1 e2 : Env) (cert seed : List Nat)
    (h1 : e1.register_oom_handler_ok = e2.register_oom_handler_ok)
    (h2 : e1.restore_safety_buffer_ok = e2.restore_safety_buffer_ok)
    (h3 : e1.seed_ptr_ok = e2.seed_ptr_ok)
    (h4 : e1.cert_ptr_ok = e2.cert_ptr_ok)
    (h5 : e1.light_client_validation = e2.light_client_validation)
    (h6 : e1.check_cert_in_current_block = e2.check_cert_in_current_block)
    (h7 : e1.block_time_s = e2.block_time_s)
    (h8 : e1.verify_ra_cert = e2.verify_ra_cert)
    (h9 : e1.verify_quote_sgx = e2.verify_quote_sgx)
    (h10 : e1.verify_ra_report = e2.verify_ra_report)
    (h11 : e1.encrypt_seed = e2.encrypt_seed) :
    ecall_authenticate_new_node e1 cert seed
      = ecall_authenticate_new_node e2 cert seed := by
  cases e1
  cases e2
  simp only at h1 h2 h3 h4 h5 h6 h7 h8 h9 h10 h11
  subst h1 h2 h3 h4 h5 h6 h7 h8 h9 h10 h11
  rfl

theorem claim_C9_deterministic_witness :
    ecall_authenticate_new_node baseEnv [] (List.replicate 96 0)
      = ecall_authenticate_new_node baseEnv [] (List.replicate 96 0) :=
  claim_C9_deterministic baseEnv baseEnv [] (List.replicate 96 0)
    rfl rfl rfl rfl rfl rfl rfl rfl rfl rfl rfl

/-! ### Total case analysis of the entry point -/

/-- Every exit of the entry point that returns a code other than `Success`
leaves the output buffer unchanged. -/
lemma ecall_frame_non_success (env : Env) (cert seed : List Nat)
    (r : NodeAuthResult)
    (hr : (ecall_authenticate_new_node env cert seed).outcome = .ok r)
    (hne : r ≠ .Success) :
    (ecall_authenticate_new_node env cert seed).seed = seed := by
  cases h1 : env.register_oom_handler_ok with
  | false => rw [ecall_register_fail env cert seed h1]
  | true =>
  cases h2 : env.seed_ptr_ok with
  | false => rw [ecall_seed_ptr_fail env cert seed h1 h2]
  | true =>
  cases h3 : env.cert_ptr_ok with
  | false => rw [ecall_cert_ptr_fail env cert seed h1 h2 h3]
  | true =>
  cases h4 : env.light_client_validation && !env.check_cert_in_current_block cert with
  | true => rw [ecall_light_client_fail env cert seed h1 h2 h3 h4]
  | false =>
  have hp : prelims_ok env cert := ⟨h1, h2, h3, h4⟩
  rcases hsplit : split_combined_cert cert with ⟨vc, vq, vl⟩
  cases hql : vq.isEmpty || vl.isEmpty with
  | true =>
    cases hc : vc.isEmpty with
    | true => rw [ecall_no_method env cert seed hp vc vq vl hsplit hql hc]
    | false =>
      rcases hepid : verify_attestation_epid env vc init_public_key with ⟨res, pk⟩
      by_cases hres : res = .Success
      · subst hres
        rw [ecall_epid_success env cert seed hp vc vq vl hsplit hql hc pk hepid] at hr ⊢
        exact seed_phase_frame env pk seed true false r hr hne
      · rw [ecall_epid_fail env cert seed hp vc vq vl hsplit hql hc res pk hepid hres]
  | false =>
    rcases hdcap : verify_attestation_dcap env vq vl init_public_key with ⟨res, pk⟩
    by_cases hres : res = .Success
    · subst hres
      rw [ecall_dcap_success env cert seed hp vc vq vl hsplit hql pk hdcap] at hr ⊢
      exact seed_phase_frame env pk seed false true r hr hne
    · rw [ecall_dcap_fail env cert seed hp vc vq vl hsplit hql res pk hdcap hres]

/-- A `Success` outcome can only come from the copy branch of the
secret-release phase: both encryptions succeeded and the buffer holds
their concatenation. -/
lemma ecall_success_shape (env : Env) (cert seed : List Nat)
    (hr : (ecall_authenticate_new_node env cert seed).outcome = .ok .Success) :
    ∃ pk g c, env.encrypt_seed pk .Genesis false = .ok (.ok g) ∧
      env.encrypt_seed pk .Current false = .ok (.ok c) ∧
      (ecall_authenticate_new_node env cert seed).seed = g ++ c := by
  cases h1 : env.register_oom_handler_ok with
  | false => rw [ecall_register_fail env cert seed h1] at hr; exact absurd hr (by simp)
  | true =>
  cases h2 : env.seed_ptr_ok with
  | false => rw [ecall_seed_ptr_fail env cert seed h1 h2] at hr; exact absurd hr (by simp)
  | true =>
  cases h3 : env.cert_ptr_ok with
  | false => rw [ecall_cert_ptr_fail env cert seed h1 h2 h3] at hr; exact absurd hr (by simp)
  | true =>
  cases h4 : env.light_client_validation && !env.check_cert_in_current_block cert with
  | true => rw [ecall_light_client_fail env cert seed h1 h2 h3 h4] at hr; exact absurd hr (by simp)
  | false =>
  have hp : prelims_ok env cert := ⟨h1, h2, h3, h4⟩
  rcases hsplit : split_combined_cert cert with ⟨vc, vq, vl⟩
  have seed_phase_case : ∀ pk b1 b2,
      (seed_phase env pk seed b1 b2).outcome = .ok .Success →
      ∃ g c, env.encrypt_seed pk .Genesis false = .ok (.ok g) ∧
        env.encrypt_seed pk .Current false = .ok (.ok c) ∧
        (seed_phase env pk seed b1 b2).seed = g ++ c := by
    intro pk b1 b2 hsr
    cases hres : env.restore_safety_buffer_ok with
    | false =>
      rw [seed_phase_restore_fail env pk seed b1 b2 hres] at hsr
      exact absurd hsr (by simp)
    | true =>
      cases hcu : catch_unwind_seed env pk with
      | panicked =>
        rw [seed_phase_panic env pk seed b1 b2 hres hcu] at hsr
        exact absurd hsr (by simp)
      | ok oc =>
        cases oc with
        | error e =>
          rw [seed_phase_err env pk seed b1 b2 e hres hcu] at hsr
          have he := catch_unwind_seed_error_inv env pk e hcu
          subst he
          exact absurd hsr (by simp)
        | ok res =>
          by_cases hlen : res.length = OUTPUT_ENCRYPTED_SEED_SIZE
          · obtain ⟨g, c, hg, hc, hgc⟩ := catch_unwind_seed_ok_inv env pk res hcu
            refine ⟨g, c, hg, hc, ?_⟩
            rw [seed_phase_copy env pk seed res b1 b2 hres hcu hlen, hgc]
          · rw [seed_phase_copy_mismatch env pk seed res b1 b2 hres hcu hlen] at hsr
            exact absurd hsr (by simp)
  cases hql : vq.isEmpty || vl.isEmpty with
  | true =>
    cases hc : vc.isEmpty with
    | true =>
      rw [ecall_no_method env cert seed hp vc vq vl hsplit hql hc] at hr
      exact absurd hr (by simp)
    | false =>
      rcases hepid : verify_attestation_epid env vc init_public_key with ⟨res, pk⟩
      by_cases hres : res = .Success
      · subst hres
        rw [ecall_epid_success env cert seed hp vc vq vl hsplit hql hc pk hepid] at hr ⊢
        obtain ⟨g, c, hg, hcc, hs⟩ := seed_phase_case pk true false hr
        exact ⟨pk, g, c, hg, hcc, hs⟩
      · rw [ecall_epid_fail env cert seed hp vc vq vl hsplit hql hc res pk hepid hres] at hr
        simp only [PanicOr.ok.injEq] at hr
        exact absurd hr hres
  | false =>
    rcases hdcap : verify_attestation_dcap env vq vl init_public_key with ⟨res, pk⟩
    by_cases hres : res = .Success
    · subst hres
      rw [ecall_dcap_success env cert seed hp vc vq vl hsplit hql pk hdcap] at hr ⊢
      obtain ⟨g, c, hg, hcc, hs⟩ := seed_phase_case pk false true hr
      exact ⟨pk, g, c, hg, hcc, hs⟩
    · rw [ecall_dcap_fail env cert seed hp vc vq vl hsplit hql res pk hdcap hres] at hr
      simp only [PanicOr.ok.injEq] at hr
      exact absurd hr hres

/-! ### Claim C4 -/

/-- C4: for every decoded bundle (under passing preliminary checks): when
the quote and collateral sections are both non-empty only the Quote Path
verifier runs — the Legacy Path is never invoked even if the certificate
section is also non-empty; otherwise, a non-empty certificate section
routes to the Legacy Path; and when all three sections are empty the call
returns `InvalidCert` without invoking either verifier. -/
theorem claim_C4_attestation_router (env : Env) (cert seed : List Nat)
    (hp : prelims_ok env cert) :
    (((split_combined_cert cert).2.1.isEmpty = false ∧
      (split_combined_cert cert).2.2.isEmpty = false) →
      (ecall_authenticate_new_node env cert seed).dcap_invoked = true ∧
      (ecall_authenticate_new_node env cert seed).epid_invoked = false) ∧
    (((split_combined_cert cert).2.1.isEmpty = true ∨
      (split_combined_cert cert).2.2.isEmpty = true) →
      (split_combined_cert cert).1.isEmpty = false →
      (ecall_authenticate_new_node env cert seed).epid_invoked = true ∧
      (ecall_authenticate_new_node env cert seed).dcap_invoked = false) ∧
    ((split_combined_cert cert).1.isEmpty = true ∧
     (split_combined_cert cert).2.1.isEmpty = true ∧
     (split_combined_cert cert).2.2.isEmpty = true →
      ecall_authenticate_new_node env cert seed =
        ⟨.ok .InvalidCert, seed, false, false, false⟩) := by
  rcases hsplit : split_combined_cert cert with ⟨vc, vq, vl⟩
  dsimp only
  refine ⟨?_, ?_, ?_⟩
  · rintro ⟨hq, hl⟩
    have hql : (vq.isEmpty || vl.isEmpty) = false := by rw [hq, hl]; rfl
    rcases hdcap : verify_attestation_dcap env vq vl init_public_key with ⟨r, pk⟩
    by_cases hr : r = .Success
    · subst hr
      rw [ecall_dcap_success env cert seed hp vc vq vl hsplit hql pk hdcap]
      have hf := seed_phase_flags env pk seed false true
      exact ⟨hf.2.1, hf.1⟩
    · rw [ecall_dcap_fail env cert seed hp vc vq vl hsplit hql r pk hdcap hr]
      exact ⟨rfl, rfl⟩
  · rintro hor hc
    have hql : (vq.isEmpty || vl.isEmpty) = true := by
      rcases hor with h | h <;> simp [h]
    rcases hepid : verify_attestation_epid env vc init_public_key with ⟨r, pk⟩
    by_cases hr : r = .Success
    · subst hr
      rw [ecall_epid_success env cert seed hp vc vq vl hsplit hql hc pk hepid]
      have hf := seed_phase_flags env pk seed true false
      exact ⟨hf.1, hf.2.1⟩
    · rw [ecall_epid_fail env cert seed hp vc vq vl hsplit hql hc r pk hepid hr]
      exact ⟨rfl, rfl⟩
  · rintro ⟨hc, hq, hl⟩
    exact ecall_no_method env cert seed hp vc vq vl hsplit (by rw [hq]; rfl) hc

/-- A bundle declaring one byte for each of the three sections: certificate
`[7]`, quote `[8]`, collateral `[9]`. -/
def certAll : List Nat := [1, 0, 0, 0, 1, 0, 0, 0, 1, 0, 0, 0, 7, 8, 9]

theorem claim_C4_attestation_router_witness :
    (ecall_authenticate_new_node baseEnv certAll (List.replicate 96 0)).dcap_invoked = true ∧
    (ecall_authenticate_new_node baseEnv certAll (List.replicate 96 0)).epid_invoked = false := by
  exact (claim_C4_attestation_router baseEnv certAll (List.replicate 96 0)
    ⟨rfl, rfl, rfl, rfl⟩).1 ⟨by decide, by decide⟩

/-! ### Claim C1 -/

/-- C1 (exhibiting the code bug): with `register_oom_handler` succeeding
and an empty bundle buffer passing the pointer checks, the call returns
`InvalidCert` without ever invoking `restore_safety_buffer` — the reserved
safety margin is left armed across calls, contrary to the claimed
unconditional release on every exit path. -/
theorem claim_C1_restore_skipped_on_early_return :
    baseEnv.register_oom_handler_ok = true ∧
    ecall_authenticate_new_node baseEnv [] (List.replicate 96 0)
      = ⟨.ok .InvalidCert, List.replicate 96 0, false, false, false⟩ ∧
    (ecall_authenticate_new_node baseEnv [] (List.replicate 96 0)).restore_called
      = false := by
  refine ⟨rfl, by decide, by decide⟩

/-! ### Claim C2 -/

/-- The environment of the C2 counterexample: the current-epoch seed
variant does not exist, so its encryption fails — and the safety-buffer
restore also fails. -/
def envC2x : Env :=
  { baseEnv with
    restore_safety_buffer_ok := false
    encrypt_seed := fun _ t _ =>
      match t with
      | SeedType.Genesis => PanicOr.ok (Except.ok (List.replicate 48 7))
      | SeedType.Current => PanicOr.ok (Except.error EncryptSeedError.variantMissing) }

/-- C2 counterexample: an encryption failure (the current variant does not
exist) reached through a fully verified call (`restore_called` shows the
call got past verification), yet the returned outcome is
`MemorySafetyAllocationError`, not `SeedEncryptionFailed`: the failing
safety-buffer restore at line 216 preempts the encryption error, so "an
encryption failure for either variant yields the single outcome
SeedEncryptionFailed" is false as stated. -/
theorem claim_C2_counterexample :
    envC2x.encrypt_seed (List.replicate 32 9) .Current false
      = .ok (.error .variantMissing) ∧
    (ecall_authenticate_new_node envC2x certAll (List.replicate 96 0)).restore_called
      = true ∧
    (ecall_authenticate_new_node envC2x certAll (List.replicate 96 0)).outcome
      = .ok .MemorySafetyAllocationError ∧
    (ecall_authenticate_new_node envC2x certAll (List.replicate 96 0)).outcome
      ≠ .ok .SeedEncryptionFailed := by
  refine ⟨rfl, by decide, by decide, by decide⟩

/-- C2 (amended): when the call returns an outcome other than `Success`,
the caller's seed output buffer is left unmodified; when it returns
`Success`, the buffer contains exactly the genesis encrypted payload
immediately followed by the current encrypted payload; and an encryption
failure for either variant (including the variant not existing) yields the
single outcome `SeedEncryptionFailed` when the safety-buffer restore
succeeds — when the restore fails, `MemorySafetyAllocationError` is
returned instead — with the buffer unmodified in either case. -/
theorem claim_C2_output_buffer (env : Env) (cert seed : List Nat) :
    (∀ r, (ecall_authenticate_new_node env cert seed).outcome = .ok r →
      r ≠ .Success →
      (ecall_authenticate_new_node env cert seed).seed = seed) ∧
    ((ecall_authenticate_new_node env cert seed).outcome = .ok .Success →
      ∃ pk g c, env.encrypt_seed pk .Genesis false = .ok (.ok g) ∧
        env.encrypt_seed pk .Current false = .ok (.ok c) ∧
        (ecall_authenticate_new_node env cert seed).seed = g ++ c) ∧
    (∀ pk, reaches_seed_phase env cert pk →
      ((∃ e, env.encrypt_seed pk .Genesis false = .ok (.error e)) ∨
       (∃ g e, env.encrypt_seed pk .Genesis false = .ok (.ok g) ∧
         env.encrypt_seed pk .Current false = .ok (.error e))) →
      (ecall_authenticate_new_node env cert seed).outcome
        = .ok (if env.restore_safety_buffer_ok then .SeedEncryptionFailed
               else .MemorySafetyAllocationError) ∧
      (ecall_authenticate_new_node env cert seed).seed = seed) := by
  refine ⟨ecall_frame_non_success env cert seed, ecall_success_shape env cert seed, ?_⟩
  intro pk hreach henc
  obtain ⟨b1, b2, heq⟩ := ecall_eq_seed_phase env cert seed pk hreach
  have hcatch := catch_unwind_seed_fail env pk henc
  rw [heq]
  cases hres : env.restore_safety_buffer_ok with
  | false =>
    rw [seed_phase_restore_fail env pk seed b1 b2 hres]
    exact ⟨rfl, rfl⟩
  | true =>
    rw [seed_phase_err env pk seed b1 b2 .SeedEncryptionFailed hres hcatch]
    exact ⟨rfl, rfl⟩

/-- The environment of the C2 witness: the current-epoch seed variant does
not exist, so its encryption fails. -/
def envC2 : Env :=
  { baseEnv with
    encrypt_seed := fun _ t _ =>
      match t with
      | SeedType.Genesis => PanicOr.ok (Except.ok (List.replicate 48 7))
      | SeedType.Current => PanicOr.ok (Except.error EncryptSeedError.variantMissing) }

theorem claim_C2_output_buffer_witness :
    (ecall_authenticate_new_node envC2 certAll (List.replicate 96 0)).outcome
      = .ok .SeedEncryptionFailed ∧
    (ecall_authenticate_new_node envC2 certAll (List.replicate 96 0)).seed
      = List.replicate 96 0 := by
  have h := (claim_C2_output_buffer envC2 certAll (List.replicate 96 0)).2.2
    (List.replicate 32 9)
    ⟨⟨rfl, rfl, rfl, rfl⟩, Or.inl ⟨by decide, by decide⟩⟩
    (Or.inr ⟨List.replicate 48 7, EncryptSeedError.variantMissing, rfl, rfl⟩)
  refine ⟨?_, h.2⟩
  rw [h.1]
  decide

/-! ### Claim C3 -/

/-- The environment of the C3 counterexample: seed encryption panics and
the safety-buffer restore fails. -/
def envC3 : Env :=
  { baseEnv with
    restore_safety_buffer_ok := false
    encrypt_seed := fun _ _ _ => PanicOr.panicked }

/-- C3 counterexample: the secret-release phase panics (the containment
region's result is an unwind), the phase is reached (`restore_called`
shows the call got past verification), yet the returned outcome is
`MemorySafetyAllocationError`, not `Panic`: a failing
`restore_safety_buffer` masks the caught panic, so "any panic … is
converted to the Panic outcome" is false as stated. -/
theorem claim_C3_counterexample :
    catch_unwind_seed envC3 (List.replicate 32 9) = .panicked ∧
    (ecall_authenticate_new_node envC3 certAll (List.replicate 96 0)).restore_called
      = true ∧
    (ecall_authenticate_new_node envC3 certAll (List.replicate 96 0)).outcome
      = .ok .MemorySafetyAllocationError ∧
    (ecall_authenticate_new_node envC3 certAll (List.replicate 96 0)).outcome
      ≠ .ok .Panic := by
  refine ⟨rfl, by decide, by decide, by decide⟩

/-- C3 (amended): any panic raised during the secret-release phase is
caught and never propagates out of the function — the call always returns
a result code — and it is converted to the `Panic` outcome exactly when
the safety-buffer restore succeeds; when the restore fails, the panic is
masked by `MemorySafetyAllocationError`. -/
theorem claim_C3_panic_contained (env : Env) (cert seed pk : List Nat)
    (hreach : reaches_seed_phase env cert pk)
    (hpanic : catch_unwind_seed env pk = .panicked) :
    (ecall_authenticate_new_node env cert seed).outcome =
      .ok (if env.restore_safety_buffer_ok then .Panic
           else .MemorySafetyAllocationError) := by
  obtain ⟨b1, b2, heq⟩ := ecall_eq_seed_phase env cert seed pk hreach
  rw [heq]
  cases hres : env.restore_safety_buffer_ok with
  | false =>
    rw [seed_phase_restore_fail env pk seed b1 b2 hres]
    rfl
  | true =>
    rw [seed_phase_panic env pk seed b1 b2 hres hpanic]
    rfl

/-- The environment of the C3 witness: seed encryption panics but the
safety-buffer restore succeeds. -/
def envC3w : Env :=
  { baseEnv with encrypt_seed := fun _ _ _ => PanicOr.panicked }

theorem claim_C3_panic_contained_witness :
    (ecall_authenticate_new_node envC3w certAll (List.replicate 96 0)).outcome
      = .ok .Panic := by
  have h := claim_C3_panic_contained envC3w certAll (List.replicate 96 0)
    (List.replicate 32 9)
    ⟨⟨rfl, rfl, rfl, rfl⟩, Or.inl ⟨by decide, by decide⟩⟩
    rfl
  rw [h]
  decide

/-! ### Claim C10 -/

/-- The environment of the C10 counterexample: both encryptions succeed
with 47-byte payloads (94 bytes concatenated, not 96), but the
safety-buffer restore fails. -/
def envC10x : Env :=
  { baseEnv with
    restore_safety_buffer_ok := false
    encrypt_seed := fun _ _ _ => PanicOr.ok (Except.ok (List.replicate 47 7)) }

/-- C10 counterexample: both seed encryptions succeed and the concatenated
payload's length differs from `OUTPUT_ENCRYPTED_SEED_SIZE`, yet the call
does not panic — the failing safety-buffer restore at line 216 returns
`MemorySafetyAllocationError` before `copy_from_slice` is ever reached, so
the claim's "ecall panics" conditional is false as stated. -/
theorem claim_C10_counterexample :
    envC10x.encrypt_seed (List.replicate 32 9) .Genesis false
      = .ok (.ok (List.replicate 47 7)) ∧
    envC10x.encrypt_seed (List.replicate 32 9) .Current false
      = .ok (.ok (List.replicate 47 7)) ∧
    (List.replicate 47 7 ++ List.replicate 47 7).length
      ≠ OUTPUT_ENCRYPTED_SEED_SIZE ∧
    (ecall_authenticate_new_node envC10x certAll (List.replicate 96 0)).restore_called
      = true ∧
    (ecall_authenticate_new_node envC10x certAll (List.replicate 96 0)).outcome
      = .ok .MemorySafetyAllocationError ∧
    (ecall_authenticate_new_node envC10x certAll (List.replicate 96 0)).outcome
      ≠ .panicked := by
  refine ⟨rfl, rfl, by decide, by decide, by decide, by decide⟩

/-- C10 (amended): if the call reaches the secret-release phase, both seed
encryptions succeed, the concatenated payload's length differs from
`OUTPUT_ENCRYPTED_SEED_SIZE`, and the safety-buffer restore succeeds, then
`ecall_authenticate_new_node` panics in the `copy_from_slice` into the
fixed-size output buffer, and this panic occurs outside the `catch_unwind`
containment region, so it escapes the function uncaught instead of being
converted to the `Panic` outcome.  (When the restore fails, the call
returns `MemorySafetyAllocationError` before the copy and no panic
occurs.) -/
theorem claim_C10_copy_from_slice_panics (env : Env) (cert seed pk g c : List Nat)
    (hreach : reaches_seed_phase env cert pk)
    (hres : env.restore_safety_buffer_ok = true)
    (hg : env.encrypt_seed pk .Genesis false = .ok (.ok g))
    (hc : env.encrypt_seed pk .Current false = .ok (.ok c))
    (hlen : (g ++ c).length ≠ OUTPUT_ENCRYPTED_SEED_SIZE) :
    (ecall_authenticate_new_node env cert seed).outcome = .panicked ∧
    (ecall_authenticate_new_node env cert seed).outcome ≠ .ok .Panic := by
  obtain ⟨b1, b2, heq⟩ := ecall_eq_seed_phase env cert seed pk hreach
  have hcatch : catch_unwind_seed env pk = .ok (.ok (g ++ c)) := by
    unfold catch_unwind_seed
    rw [hg, hc]
  rw [heq, seed_phase_copy_mismatch env pk seed (g ++ c) b1 b2 hres hcatch hlen]
  exact ⟨rfl, by simp⟩

/-- The environment of the C10 witness: each encryption returns 47 bytes,
so the concatenation is 94 bytes, shorter than the 96-byte buffer. -/
def envC10 : Env :=
  { baseEnv with
    encrypt_seed := fun _ _ _ => PanicOr.ok (Except.ok (List.replicate 47 7)) }

theorem claim_C10_copy_from_slice_panics_witness :
    (ecall_authenticate_new_node envC10 certAll (List.replicate 96 0)).outcome
      = .panicked := by
  have h := claim_C10_copy_from_slice_panics envC10 certAll (List.replicate 96 0)
    (List.replicate 32 9) (List.replicate 47 7) (List.replicate 47 7)
    ⟨⟨rfl, rfl, rfl, rfl⟩, Or.inl ⟨by decide, by decide⟩⟩
    rfl rfl rfl (by decide)
  exact h.1

end SecretNet
